import Mathlib

/-!
Verification development for the FDO server wrapper: an intercepting reverse
proxy (`internal/proxy`, here `FDOProxy`) that supervises the wrapped FDO
server as a child process and runs an ordered interceptor chain
(`internal/middleware`: `DIMiddleware`, `TO2Middleware`) around each relayed
request and response.

The Go code is embedded shallowly: HTTP requests and responses become plain
records, the single-read request body stream becomes an `Except` value that a
read either consumes successfully or fails on, the ledger client becomes a
record of oracle functions, and every observable side effect (log lines and
outbound ledger calls) is collected in an explicit effect trace returned by
each operation.
-/

deriving instance DecidableEq for Except

/-! ### Go string helpers

Purely functional translations of the `strings` package operations the
source uses: `strings.Contains`, `strings.HasSuffix`, `strings.Split` with a
single-character separator, and `http.Header.Get` (which yields `""` for an
absent key).
-/

/-- Go `strings.HasPrefix` on character lists: does the first list start with
the second? -/
def listBeginsWith : List Char → List Char → Bool
  | _, [] => true
  | [], _ :: _ => false
  | a :: as, b :: bs => if a = b then listBeginsWith as bs else false

/-- Go `strings.Contains` on character lists: does `sub` occur inside the
second argument at some position? -/
def listContainsAux (sub : List Char) : List Char → Bool
  | [] => listBeginsWith [] sub
  | c :: t => listBeginsWith (c :: t) sub || listContainsAux sub t

/-- Go `strings.Contains s sub`. -/
def strContains (s sub : String) : Bool := listContainsAux sub.toList s.toList

/-- Go `strings.HasSuffix s suf`, computed on reversed character lists. -/
def strHasSuffix (s suf : String) : Bool :=
  listBeginsWith s.toList.reverse suf.toList.reverse

/-- Go `strings.Split` with a one-character separator: splits at every
occurrence of `sep`, keeping empty segments, so splitting the empty string
yields `[[]]`. -/
def splitChar (sep : Char) : List Char → List (List Char)
  | [] => [[]]
  | c :: cs =>
    if c = sep then [] :: splitChar sep cs
    else match splitChar sep cs with
      | [] => [[c]]
      | h :: t => (c :: h) :: t

/-- Go `strings.Split s (String.singleton sep)`. -/
def strSplit (s : String) (sep : Char) : List String :=
  (splitChar sep s.toList).map String.mk

/-- Go `http.Header.Get`: first value stored under the (canonical) key, or
`""` when the header is absent. -/
def headerGet (hs : List (String × String)) (k : String) : String :=
  match hs.lookup k with
  | some v => v
  | none => ""

/-! ### Data model

HTTP messages as seen by the interceptors, and the ledger-side record
shapes.  An HTTP request body is a single-read stream: reading it yields
either all its bytes or a read error; the handler that reads it must
re-attach a fresh stream for the backend.  We model the stream as the
`Except` value the next read will produce.
-/

/-- An inbound HTTP request: URL path plus the single-read body stream
(`Except.error e` if the next read fails, `Except.ok bytes` otherwise). -/
structure Request where
  path : String
  body : Except String String
  deriving DecidableEq, Repr

/-- An outbound HTTP response: header list plus body bytes. -/
structure Response where
  headers : List (String × String)
  body : String
  deriving DecidableEq, Repr

/-- Modelled from the spec: the `internal/ledger` package is not among the
provided sources.  One signed record inside a product item passport
(`§6`: records are an ordered list of uuid/signature/descriptor
triples). -/
structure PassportRecordEntry where
  uuid : String
  signature : String
  descriptor : String
  deriving DecidableEq, Repr

/-- Modelled from the spec: the `internal/ledger` package is not among the
provided sources.  The decoded read response of the external passport
service; `di.go` only consumes `UUID` and `len(Records)`. -/
structure ProductItemPassport where
  schemaVersion : Nat
  uuid : String
  records : List PassportRecordEntry
  signature : String
  deriving DecidableEq, Repr

/-- Modelled from the spec: the `internal/ledger` package is not among the
provided sources.  The write-endpoint payload assembled by `to2.go`
(`controller_uuid`, `cert`, `deployed_location`, `timestamp`, all
strings). -/
structure CommissioningCreateRequest where
  controllerUUID : String
  cert : String
  deployedLocation : String
  timestamp : String
  deriving DecidableEq, Repr

/-- The `proxy.LedgerClient` interface: the two outbound operations the
interceptors may call, as oracle functions fixing what the external service
answers. -/
structure LedgerClient where
  getProductItemPassport : String → Except String ProductItemPassport
  createCommissioningPassport : CommissioningCreateRequest → Except String Unit

/-- One observable side effect of an interceptor or dispatcher operation:
a `slog` line (level and message) or an outbound ledger-client call. -/
inductive Effect where
  | log (level : String) (msg : String)
  | getPassport (productUUID : String)
  | createCommissioning (req : CommissioningCreateRequest)
  deriving DecidableEq, Repr

/-- Is this effect an outbound call to the External Service Client (as
opposed to a log line)? -/
def isClientCall : Effect → Bool
  | .log _ _ => false
  | .getPassport _ => true
  | .createCommissioning _ => true

/-! ### DI middleware (`internal/middleware/di.go`) -/

/-- The `DIMiddleware` struct: optional ledger client (`nil` becomes `none`)
and the product-passport feature flag. -/
structure DIMiddleware where
  ledgerClient : Option LedgerClient
  enableProductPassport : Bool

/-- `DIMiddleware.isDIRequest`: the path contains `/fdo/101/msg/` and ends
in `/10` or `/12`. -/
def isDIRequest (req : Request) : Bool :=
  strContains req.path "/fdo/101/msg/" &&
    (strHasSuffix req.path "/10" || strHasSuffix req.path "/12")

/-- `DIMiddleware.isDIResponse`: the `Message-Type` header is `"11"` or
`"13"`. -/
def isDIResponse (resp : Response) : Bool :=
  let msgType := headerGet resp.headers "Message-Type"
  msgType = "11" || msgType = "13"

/-- `DIMiddleware.extractProductID`: placeholder extraction — a plain
substring search for `productId`, returning a constant identifier on a hit
and `""` otherwise. -/
def extractProductID (body : String) : String :=
  if strContains body "productId" then "example-product-id" else ""

/-- `DIMiddleware.handleDIAppStart`: on the DI.AppStart request, when the
feature is on and a client is configured, read and restore the body, extract
the product identifier, and do a best-effort passport lookup.  Returns the
Go error, the request as left for the backend, and the effect trace. -/
def handleDIAppStart (m : DIMiddleware) (req : Request) :
    Option String × Request × List Effect :=
  if !m.enableProductPassport || m.ledgerClient.isNone then (none, req, [])
  else
    match req.body with
    | .error e => (some ("failed to read request body: " ++ e), req, [])
    | .ok body =>
      let req' : Request := { req with body := .ok body }
      let productID := extractProductID body
      if productID = "" then (none, req', [])
      else
        match m.ledgerClient with
        | none => (none, req', [])
        | some client =>
          match client.getProductItemPassport productID with
          | .error e =>
            (none, req',
              [.getPassport productID,
               .log "warn" ("Failed to get product passport: " ++ e)])
          | .ok passport =>
            (none, req',
              [.getPassport productID,
               .log "info" ("Retrieved product item passport " ++ passport.uuid
                 ++ " records " ++ toString passport.records.length)])

/-- `DIMiddleware.handleDISetCredentials`: observability logging only. -/
def handleDISetCredentials (_m : DIMiddleware) (_resp : Response) :
    Option String × List Effect :=
  (none, [.log "info" "DI.SetCredentials completed successfully"])

/-- `DIMiddleware.ProcessRequest`: classify by URL path, then dispatch
message type `"10"` (DI.AppStart) to its handler. -/
def DIMiddleware.ProcessRequest (m : DIMiddleware) (req : Request) :
    Option String × Request × List Effect :=
  if !isDIRequest req then (none, req, [])
  else
    let pathParts := strSplit req.path '/'
    if pathParts.length < 5 then (none, req, [])
    else
      let msgType := pathParts.getD 4 ""
      if msgType = "10" then handleDIAppStart m req
      else (none, req, [])

/-- `DIMiddleware.ProcessResponse`: classify by the `Message-Type` header,
then dispatch type `"11"` (DI.SetCredentials) to its handler. -/
def DIMiddleware.ProcessResponse (m : DIMiddleware) (resp : Response) :
    Option String × List Effect :=
  if !isDIResponse resp then (none, [])
  else
    let msgType := headerGet resp.headers "Message-Type"
    if msgType = "11" then handleDISetCredentials m resp
    else (none, [])

/-! ### TO2 middleware (`internal/middleware/to2.go`) -/

/-- The `TO2Middleware` struct: optional ledger client and owner id. -/
structure TO2Middleware where
  ledgerClient : Option LedgerClient
  ownerID : String

/-- `TO2Middleware.isTO2Request`: the path contains `/fdo/101/msg/` and ends
in `/60` or `/70`. -/
def isTO2Request (req : Request) : Bool :=
  strContains req.path "/fdo/101/msg/" &&
    (strHasSuffix req.path "/60" || strHasSuffix req.path "/70")

/-- `TO2Middleware.isTO2Response`: the `Message-Type` header is `"71"`. -/
def isTO2Response (resp : Response) : Bool :=
  headerGet resp.headers "Message-Type" = "71"

/-- `TO2Middleware.extractDeviceGUID`: placeholder extraction returning a
constant identifier. -/
def extractDeviceGUID (_resp : Response) : String :=
  "example-device-guid"

/-- `TO2Middleware.handleTO2HelloDevice`: logging only. -/
def handleTO2HelloDevice (_m : TO2Middleware) (_req : Request) :
    Option String × Request × List Effect :=
  (none, _req, [.log "info" "TO2.HelloDevice request received"])

/-- `TO2Middleware.handleTO2Done2`: on the TO2.Done2 response, with a
configured client, extract the device identifier, assemble the
commissioning record (empty cert and location, `time.Now().UnixNano()`
rendered in decimal — the current clock reading is passed in as `now`), and
do a best-effort write. -/
def handleTO2Done2 (m : TO2Middleware) (now : Int) (resp : Response) :
    Option String × List Effect :=
  match m.ledgerClient with
  | none => (none, [])
  | some client =>
    let deviceGUID := extractDeviceGUID resp
    if deviceGUID = "" then
      (none, [.log "warn" "Could not extract device GUID from TO2.Done2 response"])
    else
      let reqBody : CommissioningCreateRequest :=
        { controllerUUID := deviceGUID
          cert := ""
          deployedLocation := ""
          timestamp := toString now }
      match client.createCommissioningPassport reqBody with
      | .error e =>
        (none, [.createCommissioning reqBody,
                .log "warn" ("Failed to create commissioning passport: " ++ e)])
      | .ok _ =>
        (none, [.createCommissioning reqBody,
                .log "info" ("Created commissioning passport " ++ reqBody.controllerUUID)])

/-- `TO2Middleware.ProcessRequest`: classify by URL path, then dispatch
message type `"60"` (TO2.HelloDevice) to its handler. -/
def TO2Middleware.ProcessRequest (m : TO2Middleware) (req : Request) :
    Option String × Request × List Effect :=
  if !isTO2Request req then (none, req, [])
  else
    let pathParts := strSplit req.path '/'
    if pathParts.length < 5 then (none, req, [])
    else
      let msgType := pathParts.getD 4 ""
      if msgType = "60" then handleTO2HelloDevice m req
      else (none, req, [])

/-- `TO2Middleware.ProcessResponse`: classify by the `Message-Type` header,
then dispatch type `"71"` (TO2.Done2) to its handler; the clock reading the
handler will format is passed through as `now`. -/
def TO2Middleware.ProcessResponse (m : TO2Middleware) (now : Int) (resp : Response) :
    Option String × List Effect :=
  if !isTO2Response resp then (none, [])
  else
    let msgType := headerGet resp.headers "Message-Type"
    if msgType = "71" then handleTO2Done2 m now resp
    else (none, [])

/-! ### Proxy dispatcher and backend supervisor (`internal/proxy/proxy.go`) -/

/-- The `proxy.Middleware` interface: one request hook and one response
hook, each returning the Go error and its effect trace (the request hook
also returns the request as it leaves the hook, since Go mutates it in
place). -/
structure Middleware where
  processRequest : Request → Option String × Request × List Effect
  processResponse : Response → Option String × List Effect

/-- `FDOProxy.processRequest` over the interceptor chain: run each
`ProcessRequest` in order, threading the request, and stop at the first
error, wrapping it as `middleware request processing failed`. -/
def processRequestChain (mws : List Middleware) (req : Request) :
    Option String × Request × List Effect :=
  match mws with
  | [] => (none, req, [])
  | mw :: rest =>
    match mw.processRequest req with
    | (some e, req', effs) =>
      (some ("middleware request processing failed: " ++ e), req', effs)
    | (none, req', effs) =>
      let (r, req'', effs') := processRequestChain rest req'
      (r, req'', effs ++ effs')

/-- What the dispatcher's handler does with one inbound request: either
answer `500 Internal Server Error` itself, or forward the (possibly
body-rewound) request to the backend via the reverse proxy. -/
inductive RelayAction where
  | respond500
  | forward (req : Request)
  deriving DecidableEq, Repr

/-- The `http.HandlerFunc` installed by `Start`: on a middleware error, log
at error level and answer 500 without contacting the backend; otherwise
hand the request to the reverse proxy. -/
def serveRequest (mws : List Middleware) (req : Request) :
    RelayAction × List Effect :=
  match processRequestChain mws req with
  | (some e, _, effs) =>
    (.respond500, effs ++ [.log "error" ("Request processing failed: " ++ e)])
  | (none, req', effs) => (.forward req', effs)

/-- `FDOProxy.modifyResponse` over the interceptor chain: run every
`ProcessResponse` in order; an error is logged at error level and otherwise
ignored, and the hook itself always reports success to the reverse proxy. -/
def modifyResponseChain (mws : List Middleware) (resp : Response) :
    Option String × List Effect :=
  match mws with
  | [] => (none, [])
  | mw :: rest =>
    let (r, effs) := mw.processResponse resp
    let logEffs : List Effect :=
      match r with
      | some e => [.log "error" ("Middleware response processing failed: " ++ e)]
      | none => []
    let (r', effs') := modifyResponseChain rest resp
    (r', effs ++ logEffs ++ effs')

/-- The `FDOProxy` struct fields that survive construction: the fixed
backend port, the ledger client handed through, and the interceptor
chain. -/
structure FDOProxy where
  backendPort : Nat
  ledgerClient : Option LedgerClient
  middleware : List Middleware

/-- `proxy.NewFDOProxy`: builds the proxy value.  The `fdoServerPath`,
`fdoArgs` and `listenAddr` parameters are accepted and dropped; the backend
port is hardwired to `8081`. -/
def NewFDOProxy (_fdoServerPath : String) (_fdoArgs : List String)
    (_listenAddr : String) (ledgerClient : Option LedgerClient)
    (middleware : List Middleware) : FDOProxy :=
  { backendPort := 8081
    ledgerClient := ledgerClient
    middleware := middleware }

/-- A child-process command: executable, argument list, working
directory. -/
structure BackendCmd where
  exe : String
  args : List String
  dir : String
  deriving DecidableEq, Repr

/-- The command `startBackendServer` builds for a given backend port:
`go run ./cmd/server -db ./fdo-backend.db -http localhost:PORT -debug`
run inside `../go-fdo`. -/
def backendCommand (backendPort : Nat) : BackendCmd :=
  { exe := "go"
    args := ["run", "./cmd/server",
             "-db", "./fdo-backend.db",
             "-http", "localhost:" ++ toString backendPort,
             "-debug"]
    dir := "../go-fdo" }

/-- The mutable part of the proxy the supervisor touches: the handle to the
last backend command started, `none` before any start. -/
structure ProxyState where
  backendCmd : Option BackendCmd
  deriving DecidableEq, Repr

/-- The environment a `Start` run interacts with: whether launching the
child process succeeds, what the health probe answers at each 100 ms tick,
and what `ListenAndServe` eventually returns. -/
structure StartEnv where
  launchResult : Except String Unit
  healthProbe : Nat → Bool
  listenResult : Except String Unit

/-- One observable step of the startup sequence. -/
inductive StartEvent where
  | launchBackend
  | probe (tick : Nat)
  | bindListener
  deriving DecidableEq, Repr

/-- `FDOProxy.startBackendServer`: unconditionally build the backend
command, store it in the handle (overwriting any previous one), and launch
it; a launch failure is wrapped as `failed to start FDO server`. -/
def startBackendServer (p : FDOProxy) (st : ProxyState) (env : StartEnv) :
    ProxyState × List StartEvent × Except String Unit :=
  let st' : ProxyState := { st with backendCmd := some (backendCommand p.backendPort) }
  match env.launchResult with
  | .error e => (st', [.launchBackend], .error ("failed to start FDO server: " ++ e))
  | .ok _ => (st', [.launchBackend], .ok ())

/-- The polling loop of `waitForBackend`: probe the health endpoint once per
tick until it answers success, or until the 30 s timeout (300 ticks of
100 ms) elapses. -/
def waitForBackendAux (probe : Nat → Bool) : Nat → Nat → List StartEvent × Except String Unit
  | 0, _ => ([], .error "timeout waiting for backend server")
  | fuel + 1, tick =>
    if probe tick then ([.probe tick], .ok ())
    else
      let (evs, r) := waitForBackendAux probe fuel (tick + 1)
      (.probe tick :: evs, r)

/-- `FDOProxy.waitForBackend`: 300 probe attempts starting at tick 0. -/
def waitForBackend (env : StartEnv) : List StartEvent × Except String Unit :=
  waitForBackendAux env.healthProbe 300 0

/-- `FDOProxy.Start`: launch the backend process, block until the health
probe succeeds (aborting startup on launch failure or readiness timeout),
and only then bind the listening socket and serve.  Returns the updated
state, the ordered trace of startup steps, and the overall result. -/
def FDOProxy.Start (p : FDOProxy) (st : ProxyState) (env : StartEnv)
    (_listenAddr : String) : ProxyState × List StartEvent × Except String Unit :=
  match startBackendServer p st env with
  | (st', evs₁, .error e) =>
    (st', evs₁, .error ("failed to start backend FDO server: " ++ e))
  | (st', evs₁, .ok _) =>
    match waitForBackend env with
    | (evs₂, .error e) =>
      (st', evs₁ ++ evs₂, .error ("backend server not ready: " ++ e))
    | (evs₂, .ok _) =>
      (st', evs₁ ++ evs₂ ++ [.bindListener], env.listenResult)

/-! ### Concrete fixtures for witnesses and counterexamples -/

/-- A ledger client whose both operations always succeed. -/
def stubClient : LedgerClient :=
  { getProductItemPassport := fun u => .ok { schemaVersion := 1, uuid := u, records := [], signature := "" }
    createCommissioningPassport := fun _ => .ok () }

/-- A ledger client whose both operations always fail. -/
def failClient : LedgerClient :=
  { getProductItemPassport := fun _ => .error "ledger down"
    createCommissioningPassport := fun _ => .error "ledger down" }

/-- A middleware whose request hook succeeds and whose response hook
fails. -/
def okReqFailRespMW : Middleware :=
  { processRequest := fun req => (none, req, [])
    processResponse := fun _ => (some "boom", []) }

/-- A middleware whose request hook fails. -/
def failReqMW : Middleware :=
  { processRequest := fun req => (some "boom", req, [])
    processResponse := fun _ => (none, []) }

/-- A middleware whose both hooks succeed without effects. -/
def okMW : Middleware :=
  { processRequest := fun req => (none, req, [])
    processResponse := fun _ => (none, []) }

/-! ### Claim theorems -/

/-- C10: the proxy constructed by `NewFDOProxy` is independent of its
`fdoServerPath`, `fdoArgs` and `listenAddr` parameters; the backend port is
always `8081`, and the backend command is always `go run ./cmd/server` with
fixed flags in working directory `../go-fdo`, so the `fdoPath` value passed
by the orchestrator has no effect on the spawned process. -/
theorem C10_new_proxy_ignores_args (a₁ a₂ : String) (b₁ b₂ : List String)
    (c₁ c₂ : String) (lc : Option LedgerClient) (mws : List Middleware) :
    NewFDOProxy a₁ b₁ c₁ lc mws = NewFDOProxy a₂ b₂ c₂ lc mws ∧
    (NewFDOProxy a₁ b₁ c₁ lc mws).backendPort = 8081 ∧
    backendCommand (NewFDOProxy a₁ b₁ c₁ lc mws).backendPort =
      { exe := "go"
        args := ["run", "./cmd/server", "-db", "./fdo-backend.db",
                 "-http", "localhost:8081", "-debug"]
        dir := "../go-fdo" } :=
  ⟨rfl, rfl, by
    show backendCommand 8081 =
      { exe := "go"
        args := ["run", "./cmd/server", "-db", "./fdo-backend.db",
                 "-http", "localhost:8081", "-debug"]
        dir := "../go-fdo" }
    decide⟩

/-- C5: when the feature configuration is absent no ledger call is made:
with `enableProductPassport` off or a `nil` client, `handleDIAppStart` is a
silent no-op (no error, request untouched, empty effect trace), and with a
`nil` client `handleTO2Done2` is likewise a silent no-op. -/
theorem C5_no_feature_no_call (dm : DIMiddleware) (req : Request)
    (tm : TO2Middleware) (now : Int) (resp : Response) :
    ((dm.enableProductPassport = false ∨ dm.ledgerClient = none) →
      handleDIAppStart dm req = (none, req, [])) ∧
    (tm.ledgerClient = none → handleTO2Done2 tm now resp = (none, [])) := by
  constructor
  · rintro (h | h) <;> simp [handleDIAppStart, h]
  · intro h
    simp [handleTO2Done2, h]

/-- Witness for C5 at a concrete request and response that would otherwise
match the interceptors' message types. -/
theorem C5_no_feature_no_call_witness :
    handleDIAppStart ⟨none, false⟩ ⟨"/fdo/101/msg/10", .ok "productId"⟩ =
      (none, ⟨"/fdo/101/msg/10", .ok "productId"⟩, []) ∧
    handleTO2Done2 ⟨none, "owner"⟩ 0 ⟨[("Message-Type", "71")], ""⟩ = (none, []) :=
  ⟨(C5_no_feature_no_call ⟨none, false⟩ ⟨"/fdo/101/msg/10", .ok "productId"⟩
      ⟨none, "owner"⟩ 0 ⟨[("Message-Type", "71")], ""⟩).1 (Or.inl rfl),
   (C5_no_feature_no_call ⟨none, false⟩ ⟨"/fdo/101/msg/10", .ok "productId"⟩
      ⟨none, "owner"⟩ 0 ⟨[("Message-Type", "71")], ""⟩).2 rfl⟩

/-- C6: whenever `handleDIAppStart` returns without error with the
enrichment feature enabled, the request it leaves for the backend equals the
original request — the body stream yields the same bytes and no other field
changes. -/
theorem C6_request_restored (m : DIMiddleware) (req : Request)
    (henable : m.enableProductPassport = true)
    (hok : (handleDIAppStart m req).1 = none) :
    (handleDIAppStart m req).2.1 = req := by
  rcases req with ⟨p, b⟩
  cases b with
  | error e =>
    cases hg : (!m.enableProductPassport || m.ledgerClient.isNone) <;>
      simp [handleDIAppStart, hg]
  | ok body =>
    cases hg : (!m.enableProductPassport || m.ledgerClient.isNone) with
    | true => simp [handleDIAppStart, hg]
    | false =>
      by_cases hpid : extractProductID body = ""
      · simp [handleDIAppStart, hg, hpid]
      · cases hc : m.ledgerClient with
        | none => simp [handleDIAppStart, hg, hpid, hc]
        | some client =>
          cases hcall : client.getProductItemPassport (extractProductID body) <;>
            simp [handleDIAppStart, hg, hpid, hc, hcall, henable]

/-- Witness for C6: a concrete enabled interceptor with a stub client on a
matching DI.AppStart request. -/
theorem C6_request_restored_witness :
    (handleDIAppStart ⟨some stubClient, true⟩
        ⟨"/fdo/101/msg/10", .ok "productId"⟩).2.1 =
      ⟨"/fdo/101/msg/10", .ok "productId"⟩ :=
  C6_request_restored ⟨some stubClient, true⟩
    ⟨"/fdo/101/msg/10", .ok "productId"⟩ rfl rfl

/-- C4: the `Message-Type` header alone decides the response handlers: the
DI interceptor's `ProcessResponse` is its `handleDISetCredentials` exactly
when the header is `"11"`, the TO2 interceptor's `ProcessResponse` is its
`handleTO2Done2` exactly when the header is `"71"`, and any other value
(including the `""` of an absent header) yields a no-op `(none, [])`. -/
theorem C4_response_classification (dm : DIMiddleware) (tm : TO2Middleware)
    (now : Int) (resp : Response) :
    DIMiddleware.ProcessResponse dm resp =
      (if headerGet resp.headers "Message-Type" = "11"
        then handleDISetCredentials dm resp else (none, [])) ∧
    TO2Middleware.ProcessResponse tm now resp =
      (if headerGet resp.headers "Message-Type" = "71"
        then handleTO2Done2 tm now resp else (none, [])) := by
  constructor
  · by_cases h11 : headerGet resp.headers "Message-Type" = "11"
    · simp [DIMiddleware.ProcessResponse, isDIResponse, h11]
    · by_cases h13 : headerGet resp.headers "Message-Type" = "13" <;>
        simp [DIMiddleware.ProcessResponse, isDIResponse, h11, h13]
  · by_cases h71 : headerGet resp.headers "Message-Type" = "71" <;>
      simp [TO2Middleware.ProcessResponse, isTO2Response, h71]

/-- C8: on a `Message-Type: "71"` response with a configured client, the
TO2 interceptor makes exactly one ledger write, whose record carries the
extracted device identifier as `ControllerUUID`, empty `Cert` and
`DeployedLocation`, and the call-time nanosecond clock reading rendered in
decimal as `Timestamp`. -/
theorem C8_commissioning_write (m : TO2Middleware) (client : LedgerClient)
    (now : Int) (resp : Response) (hc : m.ledgerClient = some client)
    (h71 : headerGet resp.headers "Message-Type" = "71") :
    (TO2Middleware.ProcessResponse m now resp).2.filter isClientCall =
      [Effect.createCommissioning
        { controllerUUID := extractDeviceGUID resp
          cert := ""
          deployedLocation := ""
          timestamp := toString now }] := by
  simp only [TO2Middleware.ProcessResponse, isTO2Response, h71, if_true,
    decide_eq_true_eq, ite_true, Bool.not_true, Bool.false_eq_true, if_false,
    handleTO2Done2, hc, extractDeviceGUID]
  cases hcall : client.createCommissioningPassport
      { controllerUUID := "example-device-guid"
        cert := ""
        deployedLocation := ""
        timestamp := toString now } <;>
    simp [hcall, isClientCall, extractDeviceGUID]

/-- Witness for C8: a stub client, a concrete `71` response, and clock
reading 1757000000. -/
theorem C8_commissioning_write_witness :
    (TO2Middleware.ProcessResponse ⟨some stubClient, "owner"⟩ 1757000000
        ⟨[("Message-Type", "71")], ""⟩).2.filter isClientCall =
      [Effect.createCommissioning
        { controllerUUID := extractDeviceGUID ⟨[("Message-Type", "71")], ""⟩
          cert := ""
          deployedLocation := ""
          timestamp := toString (1757000000 : Int) }] :=
  C8_commissioning_write ⟨some stubClient, "owner"⟩ stubClient 1757000000
    ⟨[("Message-Type", "71")], ""⟩ rfl rfl

/-- C1: best-effort integration faults are fully swallowed — a failing
ledger read inside `handleDIAppStart` yields a `nil` handler error, a
failing ledger write inside `handleTO2Done2` yields a `nil` handler error,
and the dispatcher's response hook logs any interceptor error and still
returns `nil`, so the backend's response always reaches the client. -/
theorem C1_best_effort_faults_swallowed :
    (∀ (m : DIMiddleware) (client : LedgerClient) (req : Request) (b e : String),
      m.ledgerClient = some client → req.body = .ok b →
      (∀ u, client.getProductItemPassport u = .error e) →
      (handleDIAppStart m req).1 = none) ∧
    (∀ (m : TO2Middleware) (client : LedgerClient) (now : Int) (resp : Response) (e : String),
      m.ledgerClient = some client →
      (∀ r, client.createCommissioningPassport r = .error e) →
      (handleTO2Done2 m now resp).1 = none) ∧
    (∀ (mws : List Middleware) (resp : Response),
      (modifyResponseChain mws resp).1 = none) ∧
    (∀ (pre : List Middleware) (mw : Middleware) (post : List Middleware)
        (resp : Response) (e : String) (effs : List Effect),
      mw.processResponse resp = (some e, effs) →
      Effect.log "error" ("Middleware response processing failed: " ++ e) ∈
        (modifyResponseChain (pre ++ mw :: post) resp).2) := by
  refine ⟨?_, ?_, ?_, ?_⟩
  · intro m client req b e hc hb hfail
    rcases req with ⟨p, rb⟩
    simp only at hb
    subst hb
    cases hen : m.enableProductPassport with
    | false => simp [handleDIAppStart, hen]
    | true =>
      by_cases hpid : extractProductID b = ""
      · simp [handleDIAppStart, hen, hc, hpid]
      · simp [handleDIAppStart, hen, hc, hpid, hfail (extractProductID b)]
  · intro m client now resp e hc hfail
    simp [handleTO2Done2, hc, extractDeviceGUID, hfail]
  · intro mws resp
    induction mws with
    | nil => rfl
    | cons mw rest ih =>
      simp only [modifyResponseChain]
      rcases hmw : mw.processResponse resp with ⟨r, effs⟩
      cases r <;> simp [hmw, ih]
  · intro pre mw post resp e effs hmw
    induction pre with
    | nil => simp [modifyResponseChain, hmw]
    | cons mw' pre' ih =>
      simp only [List.cons_append, modifyResponseChain]
      rcases hmw' : mw'.processResponse resp with ⟨r', effs'⟩
      cases r' <;> simp [hmw', List.mem_append] <;> tauto

/-- Witness for C1: a failing client behind both interceptors at matching
messages, and one failing response hook inside a one-element chain. -/
theorem C1_best_effort_faults_swallowed_witness :
    (handleDIAppStart ⟨some failClient, true⟩ ⟨"/fdo/101/msg/10", .ok "productId"⟩).1 = none ∧
    (handleTO2Done2 ⟨some failClient, "owner"⟩ 0 ⟨[("Message-Type", "71")], ""⟩).1 = none ∧
    (modifyResponseChain [okReqFailRespMW] ⟨[("Message-Type", "71")], ""⟩).1 = none ∧
    Effect.log "error" ("Middleware response processing failed: " ++ "boom") ∈
      (modifyResponseChain ([] ++ okReqFailRespMW :: []) ⟨[("Message-Type", "71")], ""⟩).2 :=
  ⟨C1_best_effort_faults_swallowed.1 ⟨some failClient, true⟩ failClient
      ⟨"/fdo/101/msg/10", .ok "productId"⟩ "productId" "ledger down" rfl rfl (fun _ => rfl),
   C1_best_effort_faults_swallowed.2.1 ⟨some failClient, "owner"⟩ failClient 0
      ⟨[("Message-Type", "71")], ""⟩ "ledger down" rfl (fun _ => rfl),
   C1_best_effort_faults_swallowed.2.2.1 [okReqFailRespMW] ⟨[("Message-Type", "71")], ""⟩,
   C1_best_effort_faults_swallowed.2.2.2 [] okReqFailRespMW [] ⟨[("Message-Type", "71")], ""⟩
      "boom" [] rfl⟩

/-- The interceptor chain composes sequentially: when a prefix of the chain
succeeds, running the whole chain is running the prefix and then the rest of
the chain on the request the prefix left behind, concatenating their effect
traces. -/
theorem processRequestChain_append_ok (pre rest : List Middleware) (req : Request)
    (h : (processRequestChain pre req).1 = none) :
    processRequestChain (pre ++ rest) req =
      ((processRequestChain rest (processRequestChain pre req).2.1).1,
       (processRequestChain rest (processRequestChain pre req).2.1).2.1,
       (processRequestChain pre req).2.2 ++
         (processRequestChain rest (processRequestChain pre req).2.1).2.2) := by
  induction pre generalizing req with
  | nil => simp [processRequestChain]
  | cons mw pre' ih =>
    rcases hmw : mw.processRequest req with ⟨r1, q1, e1⟩
    cases r1 with
    | some e =>
      exfalso
      simp [processRequestChain, hmw] at h
    | none =>
      have h2 : (processRequestChain pre' q1).1 = none := by
        simpa [processRequestChain, hmw] using h
      simp [processRequestChain, hmw, ih q1 h2, List.append_assoc]

/-- C2: the dispatcher runs the request hooks in chain order, stopping at
the first one that errors — whatever interceptors sit behind the first
failure are never consulted; an error answers the client with 500 and the
request is never forwarded, and when every hook returns `nil` the request
is forwarded. -/
theorem C2_request_dispatch :
    (∀ (mws : List Middleware) (req : Request),
      (processRequestChain mws req).1 = none →
      serveRequest mws req =
        (.forward (processRequestChain mws req).2.1, (processRequestChain mws req).2.2)) ∧
    (∀ (mws : List Middleware) (req : Request) (e : String),
      (processRequestChain mws req).1 = some e →
      (serveRequest mws req).1 = .respond500) ∧
    (∀ (pre : List Middleware) (mw : Middleware) (post post' : List Middleware)
        (req : Request) (e : String) (r : Request) (c : List Effect),
      (processRequestChain pre req).1 = none →
      mw.processRequest (processRequestChain pre req).2.1 = (some e, r, c) →
      serveRequest (pre ++ mw :: post) req = serveRequest (pre ++ mw :: post') req) := by
  refine ⟨?_, ?_, ?_⟩
  · intro mws req h
    rcases hp : processRequestChain mws req with ⟨r, rq, effs⟩
    rw [hp] at h
    simp only at h
    subst h
    simp [serveRequest, hp]
  · intro mws req e h
    rcases hp : processRequestChain mws req with ⟨r, rq, effs⟩
    rw [hp] at h
    simp only at h
    subst h
    simp [serveRequest, hp]
  · intro pre mw post post' req e r c hpre hmw
    have ha := processRequestChain_append_ok pre (mw :: post) req hpre
    have hb := processRequestChain_append_ok pre (mw :: post') req hpre
    simp only [processRequestChain, hmw] at ha hb
    simp [serveRequest, ha, hb]

/-- Witness for C2: an all-clear chain forwards; a failing request hook
answers 500; and a failure in second position makes everything behind it
irrelevant. -/
theorem C2_request_dispatch_witness :
    serveRequest [okMW] ⟨"/p", .ok ""⟩ =
      (.forward (processRequestChain [okMW] ⟨"/p", .ok ""⟩).2.1,
        (processRequestChain [okMW] ⟨"/p", .ok ""⟩).2.2) ∧
    (serveRequest [failReqMW] ⟨"/p", .ok ""⟩).1 = .respond500 ∧
    serveRequest ([okMW] ++ failReqMW :: [okMW]) ⟨"/p", .ok ""⟩ =
      serveRequest ([okMW] ++ failReqMW :: []) ⟨"/p", .ok ""⟩ :=
  ⟨C2_request_dispatch.1 [okMW] ⟨"/p", .ok ""⟩ rfl,
   C2_request_dispatch.2.1 [failReqMW] ⟨"/p", .ok ""⟩
      "middleware request processing failed: boom" rfl,
   C2_request_dispatch.2.2 [okMW] failReqMW [okMW] [] ⟨"/p", .ok ""⟩
      "boom" ⟨"/p", .ok ""⟩ [] rfl rfl⟩

/-- The readiness-polling loop never emits a listener-bind step. -/
theorem bindListener_not_in_waitAux (probe : Nat → Bool) (fuel tick : Nat) :
    StartEvent.bindListener ∉ (waitForBackendAux probe fuel tick).1 := by
  induction fuel generalizing tick with
  | zero => simp [waitForBackendAux]
  | succ n ih =>
    simp only [waitForBackendAux]
    by_cases hp : probe tick = true
    · simp [hp]
    · simp only [hp, Bool.false_eq_true, if_false]
      intro hmem
      rcases List.mem_cons.mp hmem with h | h
      · exact StartEvent.noConfusion h
      · exact ih (tick + 1) h

/-- C7: `Start` always launches the backend first, and the listening socket
is bound exactly when the launch succeeded and the readiness wait returned
success — the dispatcher never relays a request before the backend's health
probe has succeeded. -/
theorem C7_readiness_gating (p : FDOProxy) (st : ProxyState) (env : StartEnv)
    (addr : String) :
    (FDOProxy.Start p st env addr).2.1.head? = some StartEvent.launchBackend ∧
    (StartEvent.bindListener ∈ (FDOProxy.Start p st env addr).2.1 ↔
      (env.launchResult = .ok () ∧ (waitForBackend env).2 = .ok ())) := by
  cases hl : env.launchResult with
  | error e => constructor <;> simp [FDOProxy.Start, startBackendServer, hl]
  | ok u =>
    cases u
    rcases hw : waitForBackend env with ⟨evs, r⟩
    cases r with
    | error e =>
      have hnb : StartEvent.bindListener ∉ evs := by
        have := bindListener_not_in_waitAux env.healthProbe 300 0
        rw [waitForBackend] at hw
        rw [hw] at this
        exact this
      constructor
      · simp [FDOProxy.Start, startBackendServer, hl, hw]
      · simp [FDOProxy.Start, startBackendServer, hl, hw, hnb]
    | ok u =>
      cases u
      constructor <;> simp [FDOProxy.Start, startBackendServer, hl, hw]

/-- C9 counterexample: after a first `Start` that succeeded all the way
through startup, a second `Start` call in the resulting state launches the
backend again and reports no error — the claimed `AlreadyStartedError` does
not exist in the code. -/
theorem C9_counterexample :
    (FDOProxy.Start (NewFDOProxy "x" [] "a" none [])
        (FDOProxy.Start (NewFDOProxy "x" [] "a" none []) ⟨none⟩
          ⟨.ok (), fun _ => true, .ok ()⟩ "a").1
        ⟨.ok (), fun _ => true, .ok ()⟩ "a").2.2 = .ok () ∧
    StartEvent.launchBackend ∈
      (FDOProxy.Start (NewFDOProxy "x" [] "a" none [])
        (FDOProxy.Start (NewFDOProxy "x" [] "a" none []) ⟨none⟩
          ⟨.ok (), fun _ => true, .ok ()⟩ "a").1
        ⟨.ok (), fun _ => true, .ok ()⟩ "a").2.1 ∧
    (FDOProxy.Start (NewFDOProxy "x" [] "a" none []) ⟨none⟩
        ⟨.ok (), fun _ => true, .ok ()⟩ "a").2.2 = .ok () := by
  refine ⟨rfl, ?_, rfl⟩
  simp [FDOProxy.Start, startBackendServer, waitForBackend, waitForBackendAux]

/-- C9 amended: the supervisor keeps no already-started guard —
`startBackendServer` unconditionally launches a fresh backend process and
overwrites the stored command handle, whatever the prior state. -/
theorem C9_amended_no_double_start_guard (p : FDOProxy) (st : ProxyState)
    (env : StartEnv) :
    (startBackendServer p st env).2.1 = [StartEvent.launchBackend] ∧
    (startBackendServer p st env).1.backendCmd = some (backendCommand p.backendPort) := by
  cases hl : env.launchResult <;> simp [startBackendServer, hl]

/-- A reversed three-character suffix check against a segment glued onto a
path ending in `/`: it succeeds exactly when the segment is the two
expected characters.  `x` and `y` are the suffix characters in reversed
order; `l` is the reversed segment, which contains no `/`. -/
theorem listBeginsWith_pair_slash (x y : Char) (hx : ('/' : Char) ≠ x)
    (hy : ('/' : Char) ≠ y) (l rest : List Char) (h : ('/' : Char) ∉ l) :
    (listBeginsWith (l ++ '/' :: rest) [x, y, '/'] = true) ↔ l = [x, y] := by
  rcases l with _ | ⟨a, _ | ⟨b, _ | ⟨c, t⟩⟩⟩
  · simp [listBeginsWith, hx]
  · simp [listBeginsWith, hy, ite_self]
  · by_cases ha : a = x <;> by_cases hb : b = y <;>
      simp [listBeginsWith, ha, hb]
  · have hc : c ≠ '/' := by
      intro hh
      exact h (by simp [hh])
    simp [listBeginsWith, hc, ite_self]

/-- For a slash-free type segment `ty`, the path `/fdo/101/msg/` ++ `ty`
ends in `/ab` exactly when `ty` is the two-character string `ab`. -/
theorem strHasSuffix_msg_path (a b : Char) (hb : ('/' : Char) ≠ b)
    (ha : ('/' : Char) ≠ a) (ty : String) (h : ('/' : Char) ∉ ty.toList) :
    (strHasSuffix ("/fdo/101/msg/" ++ ty) (String.mk ['/', a, b]) = true) ↔
      ty = String.mk [a, b] := by
  obtain ⟨tl⟩ := ty
  have h1 : ("/fdo/101/msg/" ++ String.mk tl).toList.reverse
      = tl.reverse ++ "/fdo/101/msg/".toList.reverse := by
    rw [show ("/fdo/101/msg/" ++ String.mk tl).toList
        = "/fdo/101/msg/".toList ++ tl from rfl, List.reverse_append]
  have h2 : "/fdo/101/msg/".toList.reverse
      = '/' :: ['g','s','m','/','1','0','1','/','o','d','f','/'] := by decide
  have h3 : ('/' : Char) ∉ tl.reverse := by
    intro hm
    exact h (List.mem_reverse.mp hm)
  unfold strHasSuffix
  rw [h1, h2, show (String.mk ['/', a, b]).toList.reverse = [b, a, '/'] from rfl]
  rw [listBeginsWith_pair_slash b a hb ha tl.reverse _ h3]
  constructor
  · intro hrev
    have : tl = [a, b] := by
      have := congrArg List.reverse hrev
      simpa using this
    simp [this]
  · intro hmk
    have : tl = [a, b] := by
      have := congrArg String.data hmk
      simpa using this
    simp [this]

/-- C3 counterexample: on the path `/abc/5/msg/10` the `type` segment is
`"10"`, yet `ProcessRequest` of an enabled DI interceptor with a configured
client does not behave as its DI.AppStart handler (it is a no-op with no
ledger call, while the handler would call the ledger), because the
classifier demands the literal `/fdo/101/msg/` namespace — refuting the
claim's "for every `namespace` and `n`, handler fires iff type is 10". -/
theorem C3_counterexample :
    DIMiddleware.ProcessRequest ⟨some stubClient, true⟩ ⟨"/abc/5/msg/10", .ok "productId"⟩ ≠
      handleDIAppStart ⟨some stubClient, true⟩ ⟨"/abc/5/msg/10", .ok "productId"⟩ := by
  decide

/-- C3 amended: restricted to the namespace the classifier actually
recognizes — for every request whose URL path is `/fdo/101/msg/{type}` with
a slash-free `{type}` segment, the DI interceptor's `ProcessRequest` is its
DI.AppStart handler exactly when `{type}` is `"10"`, and for every other
`{type}` it returns `nil` untouched with no external call. -/
theorem C3_amended_classification (ty : String) (hty : ('/' : Char) ∉ ty.toList)
    (m : DIMiddleware) (body : Except String String) :
    DIMiddleware.ProcessRequest m ⟨"/fdo/101/msg/" ++ ty, body⟩ =
      (if ty = "10" then handleDIAppStart m ⟨"/fdo/101/msg/" ++ ty, body⟩
       else (none, ⟨"/fdo/101/msg/" ++ ty, body⟩, [])) := by
  by_cases h10 : ty = "10"
  · subst h10
    rw [if_pos rfl]
    rfl
  · rw [if_neg h10]
    by_cases h12 : ty = "12"
    · subst h12
      rfl
    · have hsuf10 : strHasSuffix ("/fdo/101/msg/" ++ ty) "/10" = false := by
        cases hb : strHasSuffix ("/fdo/101/msg/" ++ ty) "/10" with
        | false => rfl
        | true =>
          exact absurd
            ((strHasSuffix_msg_path '1' '0' (by decide) (by decide) ty hty).mp hb) h10
      have hsuf12 : strHasSuffix ("/fdo/101/msg/" ++ ty) "/12" = false := by
        cases hb : strHasSuffix ("/fdo/101/msg/" ++ ty) "/12" with
        | false => rfl
        | true =>
          exact absurd
            ((strHasSuffix_msg_path '1' '2' (by decide) (by decide) ty hty).mp hb) h12
      have hdi : isDIRequest ⟨"/fdo/101/msg/" ++ ty, body⟩ = false := by
        simp [isDIRequest, hsuf10, hsuf12]
      simp [DIMiddleware.ProcessRequest, hdi]

/-- Witness for the amended C3 at the type segment `"10"`. -/
theorem C3_amended_classification_witness :
    DIMiddleware.ProcessRequest ⟨some stubClient, true⟩
        ⟨"/fdo/101/msg/" ++ "10", .ok "productId"⟩ =
      (if ("10" : String) = "10"
        then handleDIAppStart ⟨some stubClient, true⟩
          ⟨"/fdo/101/msg/" ++ "10", .ok "productId"⟩
        else (none, ⟨"/fdo/101/msg/" ++ "10", .ok "productId"⟩, [])) :=
  C3_amended_classification "10" (by decide) ⟨some stubClient, true⟩ (.ok "productId")
